import Mathlib

/-!
Verification development for the slidyremote Presentation API shim.

The repository ships two revisions of the shim:

* revision V1: the standalone file `presentation-api-shim.js` (695 lines,
  two-token window handshake built on the `"receiverready"` message);
* revision V2: the revised shim embedded in `README.md` (lines 569-1370,
  three-token window handshake `"ispresentation"` / `"presentation"` /
  `"presentationready"`, state-guarded window `postMessage`, and a receiver
  bootstrapper that posts `"presentationready"` through the resolved session).

The Cast transport (`CastPresentationSession`) is identical in both revisions
up to logging, so it is modelled once.  Promises are modelled as
single-assignment cells (`settled : Option (POutcome _)`), and the
asynchronous callbacks of the underlying libraries are modelled as explicit
event lists folded over a step function, so every definition is executable.
-/

/-- The two externally observable session states of the shim
(`'connected'` / `'disconnected'`). -/
inductive SessionState
  | connected
  | disconnected
deriving DecidableEq, Repr

/-- Outcome of a settled promise: the shim always rejects with no value
(`reject()`), and resolves with a session object. -/
inductive POutcome (α : Type)
  | rejected
  | resolved (value : α)
deriving DecidableEq, Repr

/-! ## Cast transport (Transport A)

Embeds the `CastPresentationSession` class,
`presentation-api-shim.js` lines 61-380 (same code in `README.md`
lines 667-1009 up to logging). -/

/-- Controller-side Cast session wrapper: `CastPresentationSession`
constructor (`presentation-api-shim.js` lines 105-126) sets `url` and
`state = 'connected'`. -/
structure CastSession where
  url : String
  state : SessionState
deriving DecidableEq, Repr

/-- `CastPresentationSession.registerCastApplication`
(`presentation-api-shim.js` lines 166-168): `castApplications[url] = id`,
an overwriting assignment into the registration table. -/
def registerCastApplication (table : String → Option String) (url appId : String) :
    String → Option String :=
  fun u => if u = url then some appId else table u

/-- The guard `!castApplications[url]` of `CastPresentationSession.create`
(`presentation-api-shim.js` lines 186-189): JavaScript truthiness, so a
missing key (`undefined`) and a stored empty string are both falsy. -/
def castAppMissing (table : String → Option String) (url : String) : Bool :=
  match table url with
  | none => true
  | some appId => appId == ""

/-- Asynchronous callbacks that the Cast library may fire into a pending
`CastPresentationSession.create` call (`presentation-api-shim.js`
lines 195-263): the resumable-session listener, the device-availability
listener, the success/error callbacks of `chrome.cast.requestSession`, and
the success/error callbacks of `chrome.cast.initialize`. -/
inductive CastEvent
  | sessionListener
  | receiverListener (available : Bool)
  | requestSucceeded
  | requestFailed
  | initDone
  | initFailed
deriving DecidableEq, Repr

/-- State of one `CastPresentationSession.create` call: the promise cell,
how many times the cell was actually written, the `sessionCreated` flag
(`presentation-api-shim.js` line 191), and how many times
`chrome.cast.requestSession` was invoked. -/
structure CreateState where
  settled : Option (POutcome CastSession)
  settleWrites : Nat
  sessionCreated : Bool
  requestSessionCalls : Nat
deriving DecidableEq, Repr

/-- Settling a promise: `resolve` / `reject` write the cell only when it is
still pending; later settle calls are ignored (ES Promise semantics). -/
def CreateState.settle (s : CreateState) (o : POutcome CastSession) : CreateState :=
  match s.settled with
  | some _ => s
  | none => { s with settled := some o, settleWrites := s.settleWrites + 1 }

/-- The local `requestSession` helper (`presentation-api-shim.js`
lines 195-216) invokes `chrome.cast.requestSession`; its success/error
callbacks arrive later as `CastEvent.requestSucceeded` / `requestFailed`. -/
def CreateState.callRequestSession (s : CreateState) : CreateState :=
  { s with requestSessionCalls := s.requestSessionCalls + 1 }

/-- One library callback processed by a pending
`CastPresentationSession.create` call (`presentation-api-shim.js`
lines 195-263):
* `sessionListener` (lines 220-226): `sessionCreated = true; resolve(...)`;
* `receiverListener` (lines 227-244): early return if `sessionCreated`;
  `reject()` when no device is available (note: no `return` after that
  `reject()`), then `requestSession()`;
* `requestSucceeded` (lines 197-200): `sessionCreated = true; resolve(...)`;
* `requestFailed` (lines 201-215): early return if `sessionCreated`,
  otherwise `reject()` (the error codes only change what is logged);
* `initDone` (lines 253-257): only sets the global `castApiInitialized`;
* `initFailed` (lines 258-262): `reject()`. -/
def CastPresentationSession.createStep (url : String) (s : CreateState) :
    CastEvent → CreateState
  | .sessionListener =>
      CreateState.settle { s with sessionCreated := true }
        (.resolved ⟨url, .connected⟩)
  | .receiverListener available =>
      if s.sessionCreated then s
      else
        (if available then s else s.settle .rejected).callRequestSession
  | .requestSucceeded =>
      CreateState.settle { s with sessionCreated := true }
        (.resolved ⟨url, .connected⟩)
  | .requestFailed =>
      if s.sessionCreated then s else s.settle .rejected
  | .initDone => s
  | .initFailed => s.settle .rejected

/-- State of a fresh `create` call before any callback fired. -/
def CreateState.pending : CreateState := ⟨none, 0, false, 0⟩

/-- State of a `create` call that called `reject(); return;` synchronously,
before registering any callback. -/
def CreateState.rejectedAtOnce : CreateState := ⟨some .rejected, 1, false, 0⟩

/-- `CastPresentationSession.create` (`presentation-api-shim.js`
lines 179-265): reject at once when the Cast library is unavailable or when
`!castApplications[url]`; otherwise call `requestSession()` directly when the
library is already initialized, and process the library callbacks
(`events`). -/
def CastPresentationSession.create (apiAvailable apiInitialized : Bool)
    (table : String → Option String) (url : String)
    (events : List CastEvent) : CreateState :=
  if !apiAvailable then CreateState.rejectedAtOnce
  else if castAppMissing table url then CreateState.rejectedAtOnce
  else
    let s0 := if apiInitialized then CreateState.pending.callRequestSession
              else CreateState.pending
    events.foldl (CastPresentationSession.createStep url) s0

/-! ## Window transport (Transport B)

Embeds the `WindowPresentationSession` class.  The controller-side session
wrapper and its message listener are the same in both shim revisions
(`presentation-api-shim.js` lines 413-436, `README.md` lines 1042-1068);
`create` and `postMessage` differ between the revisions and are modelled
separately as `...V1` / `...V2`. -/

/-- Controller-side window session: state, the invocations of the
single-slot `onstatechange` / `onmessage` callbacks (recorded only while a
callback is attached, matching the `if (that.onstatechange)` /
`if (that.onmessage)` guards), and whether those slots are filled.
A freshly constructed `WindowPresentationSession` has
`state = 'connected'` and both slots `null`. -/
structure WinSession where
  state : SessionState
  stateChangeFires : List SessionState
  messagesDelivered : List String
  hasStateChangeHandler : Bool
  hasMessageHandler : Bool
deriving DecidableEq, Repr

/-- `new WindowPresentationSession(remoteWindow)`
(`presentation-api-shim.js` lines 413-418). -/
def WinSession.fresh : WinSession := ⟨.connected, [], [], false, false⟩

/-- The `message` listener installed by the `WindowPresentationSession`
constructor (`presentation-api-shim.js` lines 421-435, identical in
`README.md` lines 1050-1067): events from other sources are ignored;
`"receivershutdown"` from the tracked window sets
`state = 'disconnected'` and fires `onstatechange` (there is no
already-disconnected guard); every other payload from the tracked window is
delivered to `onmessage`. -/
def WindowPresentationSession.handleMessage (w : WinSession)
    (fromRemoteWindow : Bool) (data : String) : WinSession :=
  if fromRemoteWindow then
    if data = "receivershutdown" then
      let w1 := { w with state := SessionState.disconnected }
      if w1.hasStateChangeHandler then
        { w1 with stateChangeFires := w1.stateChangeFires ++ [w1.state] }
      else w1
    else
      if w.hasMessageHandler then
        { w with messagesDelivered := w.messagesDelivered ++ [data] }
      else w
  else w

/-- `WindowPresentationSession.prototype.postMessage`, revision V1
(`presentation-api-shim.js` lines 445-447): no state guard, the payload is
posted to the remote window unconditionally.  The result is the list of
payloads posted to the remote window. -/
def WindowPresentationSession.postMessageV1 (w : WinSession) (msg : String) :
    List String :=
  [msg]

/-- `WindowPresentationSession.prototype.postMessage`, revision V2
(`README.md` lines 1077-1083): early return unless
`state === 'connected'`, otherwise `remoteWindow.postMessage(msg, '*')`.
The result is the list of payloads posted to the remote window. -/
def WindowPresentationSession.postMessageV2 (w : WinSession) (msg : String) :
    List String :=
  if w.state ≠ SessionState.connected then [] else [msg]

/-- State of one `WindowPresentationSession.create` call: the promise cell,
how many times it was actually written, and the payloads the controller
posted to the opened window. -/
structure WinCreateState where
  settled : Option (POutcome WinSession)
  settleWrites : Nat
  postedToWindow : List String
deriving DecidableEq, Repr

/-- Single-assignment settling of the window `create` promise. -/
def WinCreateState.settle (s : WinCreateState) (o : POutcome WinSession) :
    WinCreateState :=
  match s.settled with
  | some _ => s
  | none => { s with settled := some o, settleWrites := s.settleWrites + 1 }

/-- State of a window `create` call that is still waiting for messages. -/
def WinCreateState.pending : WinCreateState := ⟨none, 0, []⟩

/-- State of a window `create` call that called `reject(); return;` because
`window.open` returned nothing (popup blocked). -/
def WinCreateState.rejectedAtOnce : WinCreateState := ⟨some .rejected, 1, []⟩

/-- One `message` event processed by the listener of
`WindowPresentationSession.create`, revision V1 (`presentation-api-shim.js`
lines 483-489): on `"receiverready"` from the opened window, post
`"presentation"` back and resolve with a fresh controller-side session.
An event is a pair (came from the opened window?, payload). -/
def WindowPresentationSession.createStepV1 (s : WinCreateState)
    (e : Bool × String) : WinCreateState :=
  if e.1 = true ∧ e.2 = "receiverready" then
    WinCreateState.settle
      { s with postedToWindow := s.postedToWindow ++ ["presentation"] }
      (.resolved WinSession.fresh)
  else s

/-- `WindowPresentationSession.create`, revision V1
(`presentation-api-shim.js` lines 475-491). -/
def WindowPresentationSession.createV1 (openSucceeded : Bool)
    (events : List (Bool × String)) : WinCreateState :=
  if !openSucceeded then WinCreateState.rejectedAtOnce
  else events.foldl WindowPresentationSession.createStepV1 WinCreateState.pending

/-- One `message` event processed by the listener of
`WindowPresentationSession.create`, revision V2 (`README.md`
lines 1122-1136): on `"ispresentation"` from the opened window, reply
`"presentation"`; on `"presentationready"` from the opened window, resolve
with a fresh controller-side session. -/
def WindowPresentationSession.createStepV2 (s : WinCreateState)
    (e : Bool × String) : WinCreateState :=
  if e.1 = true ∧ e.2 = "ispresentation" then
    { s with postedToWindow := s.postedToWindow ++ ["presentation"] }
  else if e.1 = true ∧ e.2 = "presentationready" then
    WinCreateState.settle s (.resolved WinSession.fresh)
  else s

/-- `WindowPresentationSession.create`, revision V2 (`README.md`
lines 1112-1138). -/
def WindowPresentationSession.createV2 (openSucceeded : Bool)
    (events : List (Bool × String)) : WinCreateState :=
  if !openSucceeded then WinCreateState.rejectedAtOnce
  else events.foldl WindowPresentationSession.createStepV2 WinCreateState.pending

/-! ## Negotiator and façade

Embeds the generic `PresentationSession` façade and the `Presentation`
object (`presentation-api-shim.js` lines 557-694; revision V2 in
`README.md` lines 1212-1368). -/

/-- The inner session a façade may wrap: whichever transport won. -/
inductive InnerSession
  | cast (s : CastSession)
  | win (w : WinSession)
deriving DecidableEq, Repr

/-- The `state` property of the wrapped transport session. -/
def InnerSession.state : InnerSession → SessionState
  | .cast s => s.state
  | .win w => w.state

/-- Receiver-side `postMessage` of either transport session:
`CastReceiverSession.prototype.postMessage` (`presentation-api-shim.js`
lines 351-356: broadcast unless not connected) and revision V2
`WindowPresentationSession.prototype.postMessage` (`README.md`
lines 1077-1083).  Both guard on `state === 'connected'`; the result is the
list of payloads actually transmitted. -/
def InnerSession.post (s : InnerSession) (msg : String) : List String :=
  if s.state = SessionState.connected then [msg] else []

/-- The `PresentationSession` façade (`presentation-api-shim.js`
lines 557-562): starts with `session = null` and
`state = 'disconnected'`. -/
structure Facade where
  url : String
  session : Option InnerSession
  state : SessionState
deriving DecidableEq, Repr

/-- A façade as freshly constructed, before (or forever after a failed)
negotiation. -/
def Facade.initial (url : String) : Facade :=
  ⟨url, none, SessionState.disconnected⟩

/-- The success handler of the negotiation chain
(`presentation-api-shim.js` lines 573-592): store the inner session and
mirror its `state` (the `onmessage` / `onstatechange` pass-through wiring
installed there carries no further state). -/
def Facade.bindSession (url : String) (inner : InnerSession) : Facade :=
  ⟨url, some inner, inner.state⟩

/-- `PresentationSession.prototype.postMessage`
(`presentation-api-shim.js` lines 602-612): early return when
`!this.session`, early return when `state === 'disconnected'`, otherwise
forward the payload to the inner session.  The result is the list of
payloads handed to the inner transport session. -/
def PresentationSession.postMessage (f : Facade) (msg : String) : List String :=
  match f.session with
  | none => []
  | some _ => if f.state = SessionState.disconnected then [] else [msg]

/-- `PresentationSession.prototype.close` (`presentation-api-shim.js`
lines 618-624): early return when `!this.session`, otherwise close the
inner session and release the reference (`this.session = null`). -/
def PresentationSession.close (f : Facade) : Facade :=
  match f.session with
  | none => f
  | some _ => { f with session := none }

/-- Result of a whole `requestSession` negotiation: the eventual façade,
whether `WindowPresentationSession.create` was invoked, and the final state
of the `CastPresentationSession.create` call. -/
structure NegotiationResult where
  facade : Facade
  windowAttempted : Bool
  castState : CreateState
deriving DecidableEq, Repr

/-- `Presentation.prototype.requestSession` and the `PresentationSession`
constructor (`presentation-api-shim.js` lines 557-593 and 672-674):
`CastPresentationSession.create(url)` runs first; only its rejection
handler invokes `WindowPresentationSession.create(url)`; the session that
resolves is bound into the façade; if every attempt fails (or the pending
promise never settles) the façade keeps its initial disconnected state. -/
def Presentation.requestSession (apiAvailable apiInitialized : Bool)
    (table : String → Option String) (url : String)
    (castEvents : List CastEvent)
    (openSucceeded : Bool) (windowEvents : List (Bool × String)) :
    NegotiationResult :=
  let c := CastPresentationSession.create apiAvailable apiInitialized table url castEvents
  match c.settled with
  | some (POutcome.resolved s) =>
      ⟨Facade.bindSession url (InnerSession.cast s), false, c⟩
  | some POutcome.rejected =>
      let w := WindowPresentationSession.createV1 openSucceeded windowEvents
      match w.settled with
      | some (POutcome.resolved ws) =>
          ⟨Facade.bindSession url (InnerSession.win ws), true, c⟩
      | _ => ⟨Facade.initial url, true, c⟩
  | none => ⟨Facade.initial url, false, c⟩

/-! ## Receiver bootstrapper -/

/-- Observable receiver-side bootstrap actions, in order: an `onpresent`
event carrying the resolved receiver-side session, and a payload sent
through that session. -/
inductive BootObs
  | present (s : InnerSession)
  | sent (msg : String)
deriving DecidableEq, Repr

/-- Result of the receiver bootstrapper: whether
`WindowPresentationSession.startReceiver` was invoked, and the observable
actions in order. -/
structure BootstrapResult where
  windowStartAttempted : Bool
  trace : List BootObs
deriving DecidableEq, Repr

/-- The success handler of the bootstrap chain, revision V2 (`README.md`
lines 1324-1333): fire `onpresent` if a handler is attached, then
`session.postMessage('presentationready')`. -/
def Presentation.onReceiverSession (hasPresentHandler : Bool)
    (s : InnerSession) : List BootObs :=
  (if hasPresentHandler then [BootObs.present s] else []) ++
    (s.post "presentationready").map BootObs.sent

/-- The `Presentation` constructor, revision V2 (`README.md`
lines 1300-1337): `CastPresentationSession.startReceiver()` first; only its
rejection handler invokes `WindowPresentationSession.startReceiver()`; on
success of either, fire a single `onpresent` event and post
`"presentationready"` through the resolved session; on failure of both,
only log.  The outcomes of the two `startReceiver` promises are inputs
(`none` = never settles). -/
def Presentation.initV2 (castStart : Option (POutcome InnerSession))
    (winStart : Option (POutcome InnerSession))
    (hasPresentHandler : Bool) : BootstrapResult :=
  match castStart with
  | some (POutcome.resolved s) =>
      ⟨false, Presentation.onReceiverSession hasPresentHandler s⟩
  | some POutcome.rejected =>
      match winStart with
      | some (POutcome.resolved s) =>
          ⟨true, Presentation.onReceiverSession hasPresentHandler s⟩
      | _ => ⟨true, []⟩
  | none => ⟨false, []⟩

/-! ## Single-assignment lemmas for the Cast create promise -/

theorem CreateState.settled_settle {s : CreateState} {o : POutcome CastSession}
    (o' : POutcome CastSession) (h : s.settled = some o) :
    (s.settle o').settled = some o := by
  simp [CreateState.settle, h]

theorem createStep_settled_mono (url : String) (e : CastEvent)
    {s : CreateState} {o : POutcome CastSession} (h : s.settled = some o) :
    (CastPresentationSession.createStep url s e).settled = some o := by
  cases e with
  | sessionListener =>
      exact CreateState.settled_settle _ h
  | receiverListener available =>
      by_cases hc : s.sessionCreated
      · simp [CastPresentationSession.createStep, hc, h]
      · cases available <;>
          simp [CastPresentationSession.createStep, hc,
            CreateState.callRequestSession, CreateState.settle, h]
  | requestSucceeded =>
      exact CreateState.settled_settle _ h
  | requestFailed =>
      by_cases hc : s.sessionCreated <;>
        simp [CastPresentationSession.createStep, hc, CreateState.settle, h]
  | initDone =>
      simpa [CastPresentationSession.createStep] using h
  | initFailed =>
      simp [CastPresentationSession.createStep, CreateState.settle, h]

theorem foldl_createStep_settled_mono (url : String) (l : List CastEvent)
    {s : CreateState} {o : POutcome CastSession} (h : s.settled = some o) :
    (l.foldl (CastPresentationSession.createStep url) s).settled = some o := by
  induction l generalizing s with
  | nil => exact h
  | cons e t ih => exact ih (createStep_settled_mono url e h)

/-- The bookkeeping invariant tying the write counter to the promise cell:
the cell has been written exactly once as soon as it is filled. -/
def CreateState.writesOk (s : CreateState) : Prop :=
  s.settleWrites = if s.settled = none then 0 else 1

theorem CreateState.writesOk_settle {s : CreateState}
    (o : POutcome CastSession) (h : s.writesOk) : (s.settle o).writesOk := by
  rcases hs : s.settled with _ | o'
  · simp [CreateState.writesOk, CreateState.settle, hs] at h ⊢
    exact h
  · simpa [CreateState.settle, hs] using h

theorem createStep_writesOk (url : String) (e : CastEvent)
    {s : CreateState} (h : s.writesOk) :
    (CastPresentationSession.createStep url s e).writesOk := by
  have hup : CreateState.writesOk { s with sessionCreated := true } := h
  cases e with
  | sessionListener => exact CreateState.writesOk_settle _ hup
  | receiverListener available =>
      by_cases hc : s.sessionCreated
      · simpa [CastPresentationSession.createStep, hc] using h
      · cases available <;>
          simp only [CastPresentationSession.createStep, hc, if_true, if_false,
            Bool.false_eq_true, if_neg, ite_false, ite_true] <;>
        first
          | exact h
          | exact CreateState.writesOk_settle _ h
  | requestSucceeded => exact CreateState.writesOk_settle _ hup
  | requestFailed =>
      by_cases hc : s.sessionCreated
      · simpa [CastPresentationSession.createStep, hc] using h
      · simpa [CastPresentationSession.createStep, hc] using
          CreateState.writesOk_settle POutcome.rejected h
  | initDone => exact h
  | initFailed => exact CreateState.writesOk_settle _ h

theorem foldl_createStep_writesOk (url : String) (l : List CastEvent)
    {s : CreateState} (h : s.writesOk) :
    (l.foldl (CastPresentationSession.createStep url) s).writesOk := by
  induction l generalizing s with
  | nil => exact h
  | cons e t ih => exact ih (createStep_writesOk url e h)

theorem CreateState.writesOk_le_one {s : CreateState} (h : s.writesOk) :
    s.settleWrites ≤ 1 := by
  unfold CreateState.writesOk at h
  rw [h]
  split <;> simp

/-- Claim C3: for every Transport A `create(url)` call, even when both the
"resume existing session" path (`sessionListener`) and the "request new
session" path (`requestSucceeded`) would succeed, exactly one resolution of
the returned promise occurs — once the cell is settled, no later callback
changes it, the cell is written at most once, and on the concrete trace
where both paths fire the promise holds the first winner with exactly one
write (so exactly one success handler fires). -/
theorem castCreate_single_resolution :
    (∀ (apiAvailable apiInitialized : Bool) (table : String → Option String)
        (url : String) (evs extra : List CastEvent) (o : POutcome CastSession),
        (CastPresentationSession.create apiAvailable apiInitialized table url evs).settled
            = some o →
        (CastPresentationSession.create apiAvailable apiInitialized table url
            (evs ++ extra)).settled = some o) ∧
    (∀ (apiAvailable apiInitialized : Bool) (table : String → Option String)
        (url : String) (evs : List CastEvent),
        (CastPresentationSession.create apiAvailable apiInitialized table url
            evs).settleWrites ≤ 1) ∧
    CastPresentationSession.create true false
        (registerCastApplication (fun _ => none) "https://host/app" "ID1")
        "https://host/app" [CastEvent.sessionListener, CastEvent.requestSucceeded] =
      ⟨some (POutcome.resolved ⟨"https://host/app", SessionState.connected⟩),
        1, true, 0⟩ := by
  refine ⟨?_, ?_, by decide⟩
  · intro apiA apiI table url evs extra o h
    cases apiA with
    | false =>
        simpa [CastPresentationSession.create] using h
    | true =>
        rcases hm : castAppMissing table url with _ | _
        · simp only [CastPresentationSession.create, Bool.not_true, Bool.false_eq_true,
            if_false, hm, List.foldl_append] at h ⊢
          exact foldl_createStep_settled_mono url extra h
        · simpa [CastPresentationSession.create, hm] using h
  · intro apiA apiI table url evs
    cases apiA with
    | false => simp [CastPresentationSession.create, CreateState.rejectedAtOnce]
    | true =>
        rcases hm : castAppMissing table url with _ | _
        · have h0 : CreateState.writesOk
              (if apiI then CreateState.pending.callRequestSession
               else CreateState.pending) := by
            cases apiI <;> simp [CreateState.writesOk, CreateState.pending,
              CreateState.callRequestSession]
          have := foldl_createStep_writesOk url evs h0
          simp only [CastPresentationSession.create, Bool.not_true, Bool.false_eq_true,
            if_false, hm]
          exact CreateState.writesOk_le_one this
        · simp [CastPresentationSession.create, hm, CreateState.rejectedAtOnce]

/-- Witness for claim C3: the single-resolution guarantee applied to the
concrete both-paths trace, extended by a late error callback: the promise
still holds the first resolution. -/
theorem castCreate_single_resolution_witness :
    (CastPresentationSession.create true false
        (registerCastApplication (fun _ => none) "https://host/app" "ID1")
        "https://host/app"
        ([CastEvent.sessionListener, CastEvent.requestSucceeded] ++
          [CastEvent.requestFailed])).settled =
      some (POutcome.resolved ⟨"https://host/app", SessionState.connected⟩) :=
  castCreate_single_resolution.1 true false
    (registerCastApplication (fun _ => none) "https://host/app" "ID1")
    "https://host/app" [CastEvent.sessionListener, CastEvent.requestSucceeded]
    [CastEvent.requestFailed] _ (by decide)

/-- Claim C5: Transport A's `create(url)` rejects immediately — with no
`chrome.cast.requestSession` call and without consulting any later library
callback — when the Cast library is unavailable or when `url` has no
registered (truthy) launch identifier; consequently, for an unregistered
`url`, `requestSession` proceeds to Transport B while Transport A's
session-request step is never performed. -/
theorem castCreate_rejects_unregistered :
    (∀ (apiInitialized : Bool) (table : String → Option String) (url : String)
        (evs : List CastEvent),
        CastPresentationSession.create false apiInitialized table url evs =
          CreateState.rejectedAtOnce) ∧
    (∀ (apiAvailable apiInitialized : Bool) (table : String → Option String)
        (url : String) (evs : List CastEvent),
        castAppMissing table url = true →
        CastPresentationSession.create apiAvailable apiInitialized table url evs =
          CreateState.rejectedAtOnce) ∧
    (∀ (apiAvailable apiInitialized : Bool) (table : String → Option String)
        (url : String) (castEvents : List CastEvent) (openSucceeded : Bool)
        (windowEvents : List (Bool × String)),
        castAppMissing table url = true →
        (Presentation.requestSession apiAvailable apiInitialized table url
            castEvents openSucceeded windowEvents).windowAttempted = true ∧
        (Presentation.requestSession apiAvailable apiInitialized table url
            castEvents openSucceeded windowEvents).castState.requestSessionCalls
          = 0) := by
  have hrej : ∀ (apiAvailable apiInitialized : Bool)
      (table : String → Option String) (url : String) (evs : List CastEvent),
      castAppMissing table url = true →
      CastPresentationSession.create apiAvailable apiInitialized table url evs =
        CreateState.rejectedAtOnce := by
    intro apiA apiI table url evs hm
    cases apiA <;> simp [CastPresentationSession.create, hm]
  refine ⟨?_, hrej, ?_⟩
  · intro apiI table url evs
    simp [CastPresentationSession.create]
  · intro apiA apiI table url cevs opened wevs hm
    unfold Presentation.requestSession
    rw [hrej apiA apiI table url cevs hm]
    rcases hw : (WindowPresentationSession.createV1 opened wevs).settled
        with _ | o
    · simp [CreateState.rejectedAtOnce, hw]
    · rcases o with _ | ws <;>
        simp [CreateState.rejectedAtOnce, hw]

/-- Witness for claim C5: a concrete unregistered URL with a rich callback
trace still rejects at once with zero session requests, and the negotiator
falls through to Transport B. -/
theorem castCreate_rejects_unregistered_witness :
    CastPresentationSession.create true true (fun _ => none) "https://host/app"
        [CastEvent.receiverListener true, CastEvent.requestSucceeded] =
      CreateState.rejectedAtOnce ∧
    (Presentation.requestSession true true (fun _ => none) "https://host/app"
        [CastEvent.receiverListener true, CastEvent.requestSucceeded] true
        []).windowAttempted = true ∧
    (Presentation.requestSession true true (fun _ => none) "https://host/app"
        [CastEvent.receiverListener true, CastEvent.requestSucceeded] true
        []).castState.requestSessionCalls = 0 :=
  ⟨castCreate_rejects_unregistered.2.1 true true (fun _ => none)
      "https://host/app" [CastEvent.receiverListener true, CastEvent.requestSucceeded]
      (by decide),
    castCreate_rejects_unregistered.2.2 true true (fun _ => none)
      "https://host/app" [CastEvent.receiverListener true, CastEvent.requestSucceeded]
      true [] (by decide)⟩

/-- Claim C7 (failing input): with the Cast library available, the URL
registered and the library not yet initialized, a `receiverListener`
callback reporting no available device rejects the `create` promise, but —
because the code has no `return` after that `reject()` — the session-request
step is still performed: `chrome.cast.requestSession` is invoked once. -/
theorem receiverListener_unavailable_still_requests :
    CastPresentationSession.create true false
        (registerCastApplication (fun _ => none) "https://host/app" "ID1")
        "https://host/app" [CastEvent.receiverListener false] =
      ⟨some POutcome.rejected, 1, false, 1⟩ := by decide

/-- Claim C10: registering an empty-string launch identifier behaves exactly
like not registering at all: `CastPresentationSession.create` returns the
very same state as with the key absent (the lookup guard
`!castApplications[url]` tests truthiness, and `""` is falsy), namely an
immediate rejection. -/
theorem register_empty_id_like_unregistered :
    ∀ (table : String → Option String) (url : String)
      (apiAvailable apiInitialized : Bool) (evs : List CastEvent),
      CastPresentationSession.create apiAvailable apiInitialized
          (registerCastApplication table url "") url evs =
        CastPresentationSession.create apiAvailable apiInitialized
          (fun u => if u = url then none else table u) url evs ∧
      CastPresentationSession.create apiAvailable apiInitialized
          (registerCastApplication table url "") url evs =
        CreateState.rejectedAtOnce := by
  intro table url apiA apiI evs
  cases apiA <;>
    simp [CastPresentationSession.create, castAppMissing, registerCastApplication]

theorem foldl_createStepV2_none (evs : List (Bool × String))
    (hno : ∀ e ∈ evs, ¬(e.1 = true ∧ e.2 = "presentationready"))
    {s : WinCreateState} (h : s.settled = none) :
    (evs.foldl WindowPresentationSession.createStepV2 s).settled = none := by
  induction evs generalizing s with
  | nil => exact h
  | cons e t ih =>
      refine ih (fun x hx => hno x (by simp [hx])) ?_
      have he := hno e (by simp)
      unfold WindowPresentationSession.createStepV2
      by_cases h1 : e.1 = true ∧ e.2 = "ispresentation"
      · simp [h1, h]
      · simp [h1, he, h]

/-- Claim C2: revision V2 window-transport controller-side `create`: after
`"ispresentation"` alone the controller has replied `"presentation"` but the
promise is still pending; after `"ispresentation"` followed by
`"presentationready"` the promise is resolved — written exactly once — with
a session whose state is `connected`; and for any message sequence that
never delivers `"presentationready"` from the opened window, the promise
never resolves, so the session never reaches `connected`. -/
theorem windowCreateV2_handshake :
    WindowPresentationSession.createV2 true [(true, "ispresentation")] =
        ⟨none, 0, ["presentation"]⟩ ∧
    WindowPresentationSession.createV2 true
        [(true, "ispresentation"), (true, "presentationready")] =
      ⟨some (POutcome.resolved WinSession.fresh), 1, ["presentation"]⟩ ∧
    WinSession.fresh.state = SessionState.connected ∧
    (∀ evs : List (Bool × String),
        (∀ e ∈ evs, ¬(e.1 = true ∧ e.2 = "presentationready")) →
        (WindowPresentationSession.createV2 true evs).settled = none) := by
  refine ⟨by decide, by decide, by decide, ?_⟩
  intro evs hno
  unfold WindowPresentationSession.createV2
  simpa using foldl_createStepV2_none evs hno rfl

/-- Witness for claim C2: a sequence interrupted before
`"presentationready"` (including a `"presentationready"` from a different
window and an application payload) leaves the promise pending. -/
theorem windowCreateV2_handshake_witness :
    (WindowPresentationSession.createV2 true
        [(true, "ispresentation"), (false, "presentationready"),
          (true, "hello")]).settled = none :=
  windowCreateV2_handshake.2.2.2
    [(true, "ispresentation"), (false, "presentationready"), (true, "hello")]
    (by decide)

/-- Claim C6 (counterexample): a connected controller-side window session
with an `onstatechange` handler attached receives `"receivershutdown"` from
the tracked window twice: the second message fires `onstatechange` again —
two invocations in total, and the session state after the second message
differs observably from the state after the first — refuting "fires
onStateChange exactly once" / "a second identical message has no further
observable effect". -/
theorem receivershutdown_refires_counterexample :
    (WindowPresentationSession.handleMessage
        ⟨SessionState.connected, [], [], true, true⟩
        true "receivershutdown").stateChangeFires = [SessionState.disconnected] ∧
    (WindowPresentationSession.handleMessage
        (WindowPresentationSession.handleMessage
          ⟨SessionState.connected, [], [], true, true⟩
          true "receivershutdown")
        true "receivershutdown").stateChangeFires =
      [SessionState.disconnected, SessionState.disconnected] ∧
    WindowPresentationSession.handleMessage
        (WindowPresentationSession.handleMessage
          ⟨SessionState.connected, [], [], true, true⟩
          true "receivershutdown")
        true "receivershutdown" ≠
      WindowPresentationSession.handleMessage
        ⟨SessionState.connected, [], [], true, true⟩
        true "receivershutdown" := by decide

/-- Claim C6 (amended): `"receivershutdown"` from the tracked window sets a
connected session's state to `disconnected`, and the state transition
happens only once — a second identical message leaves the state
`disconnected` — but, there being no already-disconnected guard, each
message fires `onstatechange` again: after two messages the handler has run
twice. -/
theorem receivershutdown_disconnects_each_fire :
    ∀ w : WinSession, w.hasStateChangeHandler = true →
      (WindowPresentationSession.handleMessage w true "receivershutdown").state =
          SessionState.disconnected ∧
      (WindowPresentationSession.handleMessage w true
          "receivershutdown").stateChangeFires =
        w.stateChangeFires ++ [SessionState.disconnected] ∧
      (WindowPresentationSession.handleMessage
          (WindowPresentationSession.handleMessage w true "receivershutdown")
          true "receivershutdown").state = SessionState.disconnected ∧
      (WindowPresentationSession.handleMessage
          (WindowPresentationSession.handleMessage w true "receivershutdown")
          true "receivershutdown").stateChangeFires =
        w.stateChangeFires ++
          [SessionState.disconnected, SessionState.disconnected] := by
  intro w hw
  simp [WindowPresentationSession.handleMessage, hw]

/-- Witness for claim C6 (amended), at a concrete connected session. -/
theorem receivershutdown_disconnects_each_fire_witness :
    (WindowPresentationSession.handleMessage
        ⟨SessionState.connected, [], [], true, true⟩
        true "receivershutdown").state = SessionState.disconnected ∧
    (WindowPresentationSession.handleMessage
        ⟨SessionState.connected, [], [], true, true⟩ true
        "receivershutdown").stateChangeFires = [SessionState.disconnected] ∧
    (WindowPresentationSession.handleMessage
        (WindowPresentationSession.handleMessage
          ⟨SessionState.connected, [], [], true, true⟩ true "receivershutdown")
        true "receivershutdown").state = SessionState.disconnected ∧
    (WindowPresentationSession.handleMessage
        (WindowPresentationSession.handleMessage
          ⟨SessionState.connected, [], [], true, true⟩ true "receivershutdown")
        true "receivershutdown").stateChangeFires =
      [SessionState.disconnected, SessionState.disconnected] :=
  receivershutdown_disconnects_each_fire
    ⟨SessionState.connected, [], [], true, true⟩ rfl

/-- Claim C9: revision V2 controller-side window `postMessage` is a no-op
(nothing is posted to the remote window) unless the session state is
`connected`; when connected, the payload is posted as-is. -/
theorem winPostMessageV2_connected_only :
    ∀ (w : WinSession) (msg : String),
      (w.state ≠ SessionState.connected →
        WindowPresentationSession.postMessageV2 w msg = []) ∧
      (w.state = SessionState.connected →
        WindowPresentationSession.postMessageV2 w msg = [msg]) := by
  intro w msg
  constructor <;> intro h <;> simp [WindowPresentationSession.postMessageV2, h]

/-- Witness for claim C9: a disconnected session posts nothing, a connected
one posts the payload verbatim. -/
theorem winPostMessageV2_connected_only_witness :
    WindowPresentationSession.postMessageV2
        ⟨SessionState.disconnected, [], [], false, false⟩ "next_slide" = [] ∧
    WindowPresentationSession.postMessageV2
        ⟨SessionState.connected, [], [], false, false⟩ "next_slide" =
      ["next_slide"] :=
  ⟨(winPostMessageV2_connected_only
      ⟨SessionState.disconnected, [], [], false, false⟩ "next_slide").1
      (by decide),
    (winPostMessageV2_connected_only
      ⟨SessionState.connected, [], [], false, false⟩ "next_slide").2 rfl⟩

/-- Claim C1: `requestSession(url)` attempts Transport A first and invokes
Transport B's `create` exactly when Transport A's `create` has definitively
failed (its promise settled rejected); in particular, when Transport A's
`create` resolves, Transport B's `create` is never invoked and the resolved
Cast session is bound into the façade. -/
theorem requestSession_window_only_after_cast_failure :
    ∀ (apiAvailable apiInitialized : Bool) (table : String → Option String)
      (url : String) (castEvents : List CastEvent) (openSucceeded : Bool)
      (windowEvents : List (Bool × String)),
      ((Presentation.requestSession apiAvailable apiInitialized table url
          castEvents openSucceeded windowEvents).windowAttempted = true ↔
        (CastPresentationSession.create apiAvailable apiInitialized table url
          castEvents).settled = some POutcome.rejected) ∧
      (∀ s : CastSession,
        (CastPresentationSession.create apiAvailable apiInitialized table url
            castEvents).settled = some (POutcome.resolved s) →
        (Presentation.requestSession apiAvailable apiInitialized table url
            castEvents openSucceeded windowEvents).windowAttempted = false ∧
        (Presentation.requestSession apiAvailable apiInitialized table url
            castEvents openSucceeded windowEvents).facade =
          Facade.bindSession url (InnerSession.cast s)) := by
  intro apiA apiI table url cevs opened wevs
  unfold Presentation.requestSession
  rcases hc : (CastPresentationSession.create apiA apiI table url cevs).settled
      with _ | o
  · simp [hc]
  · rcases o with _ | s
    · rcases hw : (WindowPresentationSession.createV1 opened wevs).settled
          with _ | o2
      · simp [hc, hw]
      · rcases o2 with _ | ws <;> simp [hc, hw]
    · simp [hc]

/-- Witness for claim C1, the scenario of the spec: after registering
`"https://host/app"` with identifier `"ID1"`, a `requestSession` whose Cast
environment reports an available device and grants a session resolves to a
connected Cast-backed façade with Transport B never attempted. -/
theorem requestSession_window_only_after_cast_failure_witness :
    (Presentation.requestSession true false
        (registerCastApplication (fun _ => none) "https://host/app" "ID1")
        "https://host/app"
        [CastEvent.receiverListener true, CastEvent.requestSucceeded]
        true []).windowAttempted = false ∧
    (Presentation.requestSession true false
        (registerCastApplication (fun _ => none) "https://host/app" "ID1")
        "https://host/app"
        [CastEvent.receiverListener true, CastEvent.requestSucceeded]
        true []).facade =
      Facade.bindSession "https://host/app"
        (InnerSession.cast ⟨"https://host/app", SessionState.connected⟩) :=
  (requestSession_window_only_after_cast_failure true false
      (registerCastApplication (fun _ => none) "https://host/app" "ID1")
      "https://host/app"
      [CastEvent.receiverListener true, CastEvent.requestSucceeded] true []).2
    ⟨"https://host/app", SessionState.connected⟩ (by decide)

/-- Claim C4: the façade's `postMessage` is a no-op — nothing is forwarded
to any inner transport session — whenever no inner session exists or the
state is not `connected`; `close` always releases the inner session
reference, after which `postMessage` is a silent no-op; and when both
transports' `create` promises are rejected, the façade is its initial one:
state `disconnected`, no inner session. -/
theorem facade_postMessage_noop :
    (∀ (f : Facade) (msg : String),
        f.session = none ∨ f.state ≠ SessionState.connected →
        PresentationSession.postMessage f msg = []) ∧
    (∀ f : Facade, (PresentationSession.close f).session = none) ∧
    (∀ (f : Facade) (msg : String),
        PresentationSession.postMessage (PresentationSession.close f) msg = []) ∧
    (∀ (apiAvailable apiInitialized : Bool) (table : String → Option String)
        (url : String) (castEvents : List CastEvent) (openSucceeded : Bool)
        (windowEvents : List (Bool × String)),
        (CastPresentationSession.create apiAvailable apiInitialized table url
            castEvents).settled = some POutcome.rejected →
        (WindowPresentationSession.createV1 openSucceeded
            windowEvents).settled = some POutcome.rejected →
        (Presentation.requestSession apiAvailable apiInitialized table url
              castEvents openSucceeded windowEvents).facade.state =
            SessionState.disconnected ∧
        (Presentation.requestSession apiAvailable apiInitialized table url
              castEvents openSucceeded windowEvents).facade.session = none) := by
  have hnoop : ∀ (f : Facade) (msg : String),
      f.session = none ∨ f.state ≠ SessionState.connected →
      PresentationSession.postMessage f msg = [] := by
    intro f msg h
    rcases f with ⟨u, sess, st⟩
    rcases h with h | h
    · simp only at h
      subst h
      rfl
    · have hd : st = SessionState.disconnected := by
        cases st
        · exact absurd rfl h
        · rfl
      cases sess <;> simp [PresentationSession.postMessage, hd]
  have hclose : ∀ f : Facade, (PresentationSession.close f).session = none := by
    intro f
    rcases f with ⟨u, sess, st⟩
    cases sess <;> simp [PresentationSession.close]
  refine ⟨hnoop, hclose, ?_, ?_⟩
  · intro f msg
    exact hnoop _ msg (Or.inl (hclose f))
  · intro apiA apiI table url cevs opened wevs hc hw
    unfold Presentation.requestSession
    simp [hc, hw, Facade.initial]

/-- Witness for claim C4: the façade from a negotiation in which the Cast
library is unavailable and the popup is blocked (both promises rejected) is
disconnected with no inner session, and `postMessage` on it forwards
nothing; closing an arbitrary connected façade also releases its session. -/
theorem facade_postMessage_noop_witness :
    PresentationSession.postMessage (Facade.initial "https://host/app")
        "first_slide" = [] ∧
    (Presentation.requestSession false false (fun _ => none) "https://host/app"
        [] false []).facade.state = SessionState.disconnected ∧
    (Presentation.requestSession false false (fun _ => none) "https://host/app"
        [] false []).facade.session = none :=
  ⟨facade_postMessage_noop.1 (Facade.initial "https://host/app") "first_slide"
      (Or.inl rfl),
    facade_postMessage_noop.2.2.2 false false (fun _ => none) "https://host/app"
      [] false [] (by decide) (by decide)⟩

/-- Claim C8: the receiver bootstrapper (revision V2) runs Transport A's
`startReceiver` first and Transport B's only on its definitive failure; on
success of either, with an `onpresent` handler attached, it fires exactly
one `onpresent` event carrying the resolved (connected) receiver-side
session and then posts `"presentationready"` through that very session; on
failure of both it fires nothing. -/
theorem presentationInit_order_and_ready :
    ∀ (castStart winStart : Option (POutcome InnerSession)) (s : InnerSession),
      (castStart = some (POutcome.resolved s) →
        s.state = SessionState.connected →
        Presentation.initV2 castStart winStart true =
          ⟨false, [BootObs.present s, BootObs.sent "presentationready"]⟩) ∧
      (castStart = some POutcome.rejected →
        winStart = some (POutcome.resolved s) →
        s.state = SessionState.connected →
        Presentation.initV2 castStart winStart true =
          ⟨true, [BootObs.present s, BootObs.sent "presentationready"]⟩) ∧
      (castStart = some POutcome.rejected →
        winStart = some POutcome.rejected →
        Presentation.initV2 castStart winStart true = ⟨true, []⟩) := by
  intro cs ws s
  refine ⟨?_, ?_, ?_⟩
  · intro h1 h2
    subst h1
    simp [Presentation.initV2, Presentation.onReceiverSession,
      InnerSession.post, h2]
  · intro h1 h2 h3
    subst h1
    subst h2
    simp [Presentation.initV2, Presentation.onReceiverSession,
      InnerSession.post, h3]
  · intro h1 h2
    subst h1
    subst h2
    rfl

/-- Witness for claim C8: a window receiver session resolved by Transport B
after Transport A failed yields the single `onpresent` event followed by
the `"presentationready"` post. -/
theorem presentationInit_order_and_ready_witness :
    Presentation.initV2 (some POutcome.rejected)
        (some (POutcome.resolved (InnerSession.win WinSession.fresh))) true =
      ⟨true, [BootObs.present (InnerSession.win WinSession.fresh),
        BootObs.sent "presentationready"]⟩ :=
  (presentationInit_order_and_ready (some POutcome.rejected)
      (some (POutcome.resolved (InnerSession.win WinSession.fresh)))
      (InnerSession.win WinSession.fresh)).2.1 rfl rfl rfl
